import Mathlib

/-!
Verification of `src/app.py` (a Dash dashboard visualising cancer mortality
and incidence data), as a shallow embedding in Lean.

Data frames are embedded as lists of records; pandas group-by/sum, merge and
`fillna` are embedded as executable list functions; Plotly figures are
embedded by their data-bearing fields (states/colors for the choropleth,
bar categories/heights and the category order array for the bar chart).
Python string operations used by `clean_age_group` (lexicographic `<=`,
substring `in`, `replace`, `strip`, `title`) are embedded over `List Char`
with Python's code-point semantics.
-/

set_option autoImplicit false

namespace Vis

/-- Python string `<=` on char lists: lexicographic by code point. -/
def pyListLe : List Char → List Char → Bool
  | [], _ => true
  | _ :: _, [] => false
  | a :: as, b :: bs => if a < b then true else if b < a then false else pyListLe as bs

/-- Python string `<=` (used by the chained comparisons in `clean_age_group`). -/
def pyLe (s t : String) : Bool := pyListLe s.data t.data

/-- Python `needle in hay` on char lists: `pat` occurs as a contiguous infix. -/
def pyInList (pat : List Char) : List Char → Bool
  | [] => pat.isEmpty
  | c :: cs => pat.isPrefixOf (c :: cs) || pyInList pat cs

/-- Python substring test `needle in hay`. -/
def pyIn (needle hay : String) : Bool := pyInList needle.data hay.data

/-- Python `str.replace` on char lists, replacing every non-overlapping
occurrence of `pat` left to right.  The `Nat` argument is fuel, initialised
to the list length (every step consumes at least one character, so the fuel
never runs out on the initial call). -/
def pyReplaceList (pat rep : List Char) : Nat → List Char → List Char
  | 0, l => l
  | _ + 1, [] => []
  | fuel + 1, c :: cs =>
    if pat.isPrefixOf (c :: cs) && !pat.isEmpty then
      rep ++ pyReplaceList pat rep fuel (List.drop pat.length (c :: cs))
    else
      c :: pyReplaceList pat rep fuel cs

/-- Python `s.replace(pat, rep)`. -/
def pyReplace (s pat rep : String) : String :=
  String.mk (pyReplaceList pat.data rep.data s.data.length s.data)

/-- Python `s.strip()`: drop leading and trailing whitespace. -/
def pyStrip (s : String) : String :=
  String.mk (((s.data.dropWhile Char.isWhitespace).reverse.dropWhile Char.isWhitespace).reverse)

/-- Python `str.title` on char lists: the flag records whether the previous
character was alphabetic; a letter starting a word is uppercased, the rest
are lowercased. -/
def pyTitleList : Bool → List Char → List Char
  | _, [] => []
  | prevAlpha, c :: cs =>
    if c.isAlpha then
      (if prevAlpha then c.toLower else c.toUpper) :: pyTitleList true cs
    else
      c :: pyTitleList false cs

/-- Python `s.title()`. -/
def pyTitle (s : String) : String := String.mk (pyTitleList false s.data)

/-- `clean_age_group` from `src/app.py` lines 22-36, verbatim: the label is
stripped of `" years"`, then classified by *string* (lexicographic)
comparisons. -/
def clean_age_group (age_group : String) : String :=
  let ag := if pyIn "years" age_group then pyStrip (pyReplace age_group " years" "") else age_group
  if ag = "< 1" then "0-19"
  else if (pyLe "1-4" ag && pyLe ag "19") || pyIn "15-19" ag then "0-19"
  else if pyLe "20-24" ag && pyLe ag "39" then "20-39"
  else if pyLe "40-44" ag && pyLe ag "59" then "40-59"
  else if pyLe "60-64" ag && pyLe ag "79" then "60-79"
  else "80+"

example : clean_age_group "< 1 years" = "0-19" := by decide
example : clean_age_group "1-4 years" = "0-19" := by decide
example : clean_age_group "5-9 years" = "40-59" := by decide
example : clean_age_group "10-14 years" = "0-19" := by decide
example : clean_age_group "15-19 years" = "0-19" := by decide
example : clean_age_group "20-24 years" = "20-39" := by decide
example : clean_age_group "35-39 years" = "20-39" := by decide
example : clean_age_group "40-44 years" = "40-59" := by decide
example : clean_age_group "55-59 years" = "40-59" := by decide
example : clean_age_group "60-64 years" = "60-79" := by decide
example : clean_age_group "75-79 years" = "60-79" := by decide
example : clean_age_group "80-84 years" = "80+" := by decide
example : clean_age_group "85+ years" = "80+" := by decide

/-! ## Data model: records, cleaning, aggregation -/

/-- A row of `Mortality.csv` / `Incidence.csv` after the module-level cleaning
(app.py 17-18, 40-41): the count column (`Deaths` resp. `Count`) is `value`
(`none` = NaN), and `AgeRange` is the computed `Age Range` column. -/
structure Record where
  State : String
  Year : Int
  value : Option Int
  AgeRange : String
  deriving DecidableEq, Repr

/-- A row of the CSV as read, before coercion: the count column is the raw
string, the age column the raw `Age Group` / `Age Groups` label. -/
structure RawRecord where
  State : String
  Year : Int
  rawValue : String
  AgeGroup : String
  deriving DecidableEq, Repr

/-- `pd.to_numeric(·, errors="coerce")` restricted to the integer-formatted
count fields of these CSVs: a nonempty all-digit string parses to the integer
it denotes; anything else (e.g. `"Suppressed"`) becomes missing (NaN). -/
def toNumericCoerce (s : String) : Option Int :=
  if !s.data.isEmpty && s.data.all Char.isDigit then
    some (Int.ofNat (s.data.foldl (fun n c => 10 * n + (c.toNat - 48)) 0))
  else none

/-- app.py 17-18 and 40-41: coerce the count column and compute `Age Range`. -/
def cleanRecord (r : RawRecord) : Record :=
  { State := r.State, Year := r.Year, value := toNumericCoerce r.rawValue,
    AgeRange := clean_age_group r.AgeGroup }

def cleanData (rs : List RawRecord) : List Record := rs.map cleanRecord

/-- pandas `Series.sum()` with the default `skipna=True`: missing values are
skipped, and an empty or all-missing series sums to `0`. -/
def pandasSum (xs : List (Option Int)) : Int := (xs.filterMap id).sum

/-- Insertion step of a stable insertion sort. -/
def insertBy {α : Type} (le : α → α → Bool) (x : α) : List α → List α
  | [] => [x]
  | y :: ys => if le x y then x :: y :: ys else y :: insertBy le x ys

/-- Stable insertion sort (pandas sorts group keys and outer-merge keys). -/
def sortBy {α : Type} (le : α → α → Bool) (l : List α) : List α :=
  l.foldr (insertBy le) []

/-- Order on `(State, Year)` keys: lexicographic, strings by code point. -/
def keyLe (a b : String × Int) : Bool :=
  if a.1 = b.1 then decide (a.2 ≤ b.2) else pyLe a.1 b.1

/-- `aggregate_data` (app.py 79-80):
`data.groupby(["State", "Year"])[value_column].sum().reset_index()` — one row
per `(State, Year)` key occurring in the data, keys sorted, the value being
the pandas sum of the value column over the group. -/
def aggregate_data (data : List Record) : List (String × Int × Int) :=
  (sortBy keyLe ((data.map fun r => (r.State, r.Year)).dedup)).map fun k =>
    (k.1, k.2, pandasSum ((data.filter fun r =>
      decide (r.State = k.1 ∧ r.Year = k.2)).map Record.value))

/-! ## Shapefile, clipping and the choropleth map -/

/-- A row of the states shapefile: the `name` field and the geometry,
modelled as its list of `(longitude, latitude)` vertices. -/
structure ShapeRow where
  name : String
  geometry : List (Int × Int)
  deriving DecidableEq, Repr

def min_long : Int := -125
def max_long : Int := -66
def min_lat : Int := 24
def max_lat : Int := 49

/-- `gdf = gdf.cx[min_long:max_long, min_lat:max_lat]` (app.py 57): keep the
shapefile rows whose geometry intersects the contiguous-U.S. bounding box
(for vertex-list geometries: some vertex lies in the box).  The app applies
this once at module load; we apply it wherever the module-level `gdf` is
used. -/
def cxClip (rows : List ShapeRow) : List ShapeRow :=
  rows.filter fun r => r.geometry.any fun p =>
    decide (min_long ≤ p.1 ∧ p.1 ≤ max_long ∧ min_lat ≤ p.2 ∧ p.2 ≤ max_lat)

/-- The left merge inside `merge_data_with_shapefile` (app.py 96-98):
`gdf.merge(aggregated_data, left_on="name", right_on="State", how="left")`.
A shapefile row with no match keeps NaN in the value column.  A merged row is
`(name, value)`; `agg` rows are `(State, Year, value)`. -/
def leftMergeShape (gdf : List ShapeRow) (agg : List (String × Int × Int)) :
    List (String × Option Int) :=
  gdf.flatMap fun row =>
    let ms := agg.filter fun a => decide (a.1 = row.name)
    if ms.isEmpty then [(row.name, none)] else ms.map fun a => (row.name, some a.2.2)

/-- `merge_data_with_shapefile` (app.py 89-103): the left merge followed by
`dropna(subset=[value_column])` — since aggregated sums are never NaN, this
drops exactly the unmatched shapefile rows. -/
def merge_data_with_shapefile (gdf : List ShapeRow) (agg : List (String × Int × Int)) :
    List (String × Int) :=
  (leftMergeShape gdf agg).filterMap fun p => p.2.map fun v => (p.1, v)

/-- `merge_mortality_with_shapefile` (app.py 61-74): strips and title-cases
the mortality `State` column, left-merges `gdf` with the (unaggregated)
mortality data on `name = State`, and drops rows with NaN `Deaths`.  This
function is defined in the app but never called on the rendering path. -/
def merge_mortality_with_shapefile (shapefile : List ShapeRow) (mort : List Record) :
    List (String × Int) :=
  let cleaned := mort.map fun r => { r with State := pyTitle (pyStrip r.State) }
  (cxClip shapefile).flatMap fun row =>
    (cleaned.filter fun r => decide (r.State = row.name)).filterMap fun r =>
      r.value.map fun v => (row.name, v)

/-- The choropleth figure, modelled by its data-bearing fields: the
`(state, color value)` pairs it colours, the colour scale, and the title. -/
structure MapFig where
  states : List (String × Int)
  colorScale : String
  title : String
  deriving DecidableEq, Repr

/-- Year filter applied to aggregated data (app.py 109-116). -/
def filterYear (agg : List (String × Int × Int)) (y : Int) : List (String × Int × Int) :=
  agg.filter fun a => decide (a.2.1 = y)

/-- `create_us_map_with_aggregated_data` (app.py 107-159). -/
def create_us_map_with_aggregated_data (shapefile : List ShapeRow)
    (incAgg mortAgg : List (String × Int × Int)) (selected_year : Int)
    (data_type : String) : MapFig :=
  let filtered := if data_type = "incidence" then filterYear incAgg selected_year
                  else filterYear mortAgg selected_year
  { states := merge_data_with_shapefile (cxClip shapefile) filtered
    colorScale := if data_type = "incidence" then "Oranges" else "Greys"
    title := "Number of " ++ pyTitle data_type ++ " by State in " ++ toString selected_year }

/-! ## Bar chart -/

/-- `groupby("Age Range").agg({col: "sum"}).reset_index()` (app.py 245-252):
one row per Age Range occurring in the data, keys sorted, with the pandas sum
of the value column. -/
def groupSumBy (data : List Record) : List (String × Int) :=
  (sortBy pyLe ((data.map Record.AgeRange).dedup)).map fun r =>
    (r, pandasSum ((data.filter fun x => decide (x.AgeRange = r)).map Record.value))

/-- Rows of `combined_data` in `update_chart` (app.py 241-257): filter both
datasets to the selected year, group each by Age Range summing its value
column, outer-merge on Age Range (keys sorted), `fillna(0)`.  A row is
`(Age Range, Deaths, Count)`. -/
def update_chart_rows (mort incid : List Record) (selected_year : Int) :
    List (String × Int × Int) :=
  let mByAge := groupSumBy (mort.filter fun r => decide (r.Year = selected_year))
  let iByAge := groupSumBy (incid.filter fun r => decide (r.Year = selected_year))
  let keys := sortBy pyLe ((mByAge.map Prod.fst ++ iByAge.map Prod.fst).dedup)
  keys.map fun r => (r, (mByAge.lookup r).getD 0, (iByAge.lookup r).getD 0)

/-- The bar-chart figure, modelled by its data-bearing fields: the category
and height lists of its two traces, the x-axis `categoryarray` (which fixes
the display order of the categories), and the title. -/
structure BarFig where
  xs : List String
  incidence : List Int
  deaths : List Int
  categoryArray : List String
  title : String
  deriving DecidableEq, Repr

/-- `update_chart` (app.py 238-297): the bar-chart callback.  Its only input
is the year slider (app.py 238). -/
def update_chart (mort incid : List Record) (selected_year : Int) : BarFig :=
  let rows := update_chart_rows mort incid selected_year
  { xs := rows.map fun r => r.1
    incidence := rows.map fun r => r.2.2
    deaths := rows.map fun r => r.2.1
    categoryArray := ["0-19", "20-39", "40-59", "60-79", "80+"]
    title := "Cancer Mortality and Incidence in " ++ toString selected_year }

/-- `update_map` (app.py 229-234): the map callback; its inputs are the year
slider and the data-type selector.  The module pre-aggregates both datasets
(app.py 84-85). -/
def update_map (shapefile : List ShapeRow) (mort incid : List Record)
    (selected_year : Int) (data_type : String) : MapFig :=
  create_us_map_with_aggregated_data shapefile (aggregate_data incid)
    (aggregate_data mort) selected_year data_type

/-- The app's two reactive outputs as a function of the control state
`(year, data_type)`.  The bar-chart callback is wired to the year slider
only, so the second component does not depend on `data_type`. -/
def app_figures (shapefile : List ShapeRow) (mort incid : List Record)
    (year : Int) (data_type : String) : MapFig × BarFig :=
  (update_map shapefile mort incid year data_type, update_chart mort incid year)

example :
    aggregate_data
      [⟨"Alabama", 2020, some 3, "0-19"⟩, ⟨"Alabama", 2020, some 4, "20-39"⟩,
       ⟨"Texas", 2020, none, "0-19"⟩, ⟨"Alabama", 2019, some 9, "80+"⟩] =
      [("Alabama", 2019, 9), ("Alabama", 2020, 7), ("Texas", 2020, 0)] := by decide

example :
    update_chart_rows
      [⟨"Alabama", 2020, some 3, "0-19"⟩, ⟨"Alabama", 2020, some 4, "20-39"⟩]
      [⟨"Alabama", 2020, some 5, "20-39"⟩, ⟨"Alabama", 2019, some 8, "80+"⟩] 2020 =
      [("0-19", 3, 0), ("20-39", 4, 5)] := by decide

example :
    (update_map [⟨"Alabama", [(-90, 32)]⟩, ⟨"Alaska", [(-150, 64)]⟩]
      [⟨"Alabama", 2020, some 3, "0-19"⟩]
      [⟨"Alabama", 2020, some 11, "0-19"⟩, ⟨"Alaska", 2020, some 7, "0-19"⟩]
      2020 "incidence").states = [("Alabama", 11)] := by decide

/-! ## Helper lemmas -/

theorem mem_insertBy {α : Type} (le : α → α → Bool) (x a : α) (l : List α) :
    a ∈ insertBy le x l ↔ a = x ∨ a ∈ l := by
  induction l with
  | nil => simp [insertBy]
  | cons y ys ih =>
    simp only [insertBy]
    split
    · simp
    · simp only [List.mem_cons, ih]
      tauto

theorem mem_sortBy {α : Type} (le : α → α → Bool) (a : α) (l : List α) :
    a ∈ sortBy le l ↔ a ∈ l := by
  induction l with
  | nil => simp [sortBy]
  | cons y ys ih =>
    simp only [sortBy, List.foldr_cons] at *
    rw [mem_insertBy]
    simp [ih]

theorem nodup_insertBy {α : Type} (le : α → α → Bool) (x : α) (l : List α)
    (hx : x ∉ l) (hl : l.Nodup) : (insertBy le x l).Nodup := by
  induction l with
  | nil => simp [insertBy]
  | cons y ys ih =>
    simp only [insertBy]
    rw [List.nodup_cons] at hl
    split
    · exact List.nodup_cons.2 ⟨hx, List.nodup_cons.2 hl⟩
    · have hxy : x ≠ y := fun h => hx (h ▸ List.mem_cons_self x ys)
      have hxys : x ∉ ys := fun h => hx (List.mem_cons_of_mem y h)
      refine List.nodup_cons.2 ⟨?_, ih hxys hl.2⟩
      rw [mem_insertBy]
      push_neg
      exact ⟨fun h => hxy h.symm, hl.1⟩

theorem nodup_sortBy {α : Type} (le : α → α → Bool) (l : List α) (h : l.Nodup) :
    (sortBy le l).Nodup := by
  induction l with
  | nil => simp [sortBy]
  | cons y ys ih =>
    rw [List.nodup_cons] at h
    simp only [sortBy, List.foldr_cons]
    refine nodup_insertBy _ _ _ ?_ (ih h.2)
    rw [show ys.foldr (insertBy le) [] = sortBy le ys from rfl, mem_sortBy]
    exact h.1

theorem lookup_map_self {α β : Type} [DecidableEq α] [BEq α] [LawfulBEq α]
    (ks : List α) (f : α → β) (k : α) :
    (ks.map fun x => (x, f x)).lookup k = if k ∈ ks then some (f k) else none := by
  induction ks with
  | nil => simp [List.lookup]
  | cons a as ih =>
    simp only [List.map_cons, List.lookup]
    by_cases hka : k = a
    · subst hka; simp
    · have hbeq : (k == a) = false := by simp [hka]
      simp [hbeq, ih, hka]

theorem pandasSum_eq_sum_getD (xs : List (Option Int)) :
    pandasSum xs = (xs.map fun o => o.getD 0).sum := by
  induction xs with
  | nil => rfl
  | cons x xs ih => cases x <;> simp [pandasSum, List.filterMap_cons] at * <;> simp [ih]

theorem filter_ageRange_nil (data : List Record) (r : String)
    (h : r ∉ data.map Record.AgeRange) :
    data.filter (fun x => decide (x.AgeRange = r)) = [] := by
  induction data with
  | nil => rfl
  | cons d ds ih =>
    simp only [List.map_cons, List.mem_cons] at h
    push_neg at h
    have hd : d.AgeRange ≠ r := fun hc => h.1 hc.symm
    simp [List.filter_cons, hd, ih h.2]

theorem mem_map_key_triple (f g : String → Int) (ks : List String) (r : String) (d c : Int) :
    (r, d, c) ∈ ks.map (fun k => (k, f k, g k)) ↔ r ∈ ks ∧ d = f r ∧ c = g r := by
  rw [List.mem_map]
  constructor
  · rintro ⟨k, hk, heq⟩
    simp only [Prod.mk.injEq] at heq
    obtain ⟨h1, h2, h3⟩ := heq
    subst h1
    exact ⟨hk, h2.symm, h3.symm⟩
  · rintro ⟨hk, hd, hc⟩
    exact ⟨r, hk, by simp [hd, hc]⟩

theorem mem_aggregate_iff (data : List Record) (s : String) (y v : Int) :
    (s, y, v) ∈ aggregate_data data ↔
      (∃ r ∈ data, r.State = s ∧ r.Year = y) ∧
      v = pandasSum ((data.filter fun r =>
            decide (r.State = s ∧ r.Year = y)).map Record.value) := by
  unfold aggregate_data
  rw [List.mem_map]
  constructor
  · rintro ⟨⟨ks, ky⟩, hk, heq⟩
    rw [mem_sortBy, List.mem_dedup, List.mem_map] at hk
    obtain ⟨r, hr, hkr⟩ := hk
    simp only [Prod.mk.injEq] at heq hkr
    obtain ⟨hs, hy, hv⟩ := heq
    subst hs; subst hy
    exact ⟨⟨r, hr, hkr.1, hkr.2⟩, hv.symm⟩
  · rintro ⟨⟨r, hr, h1, h2⟩, hv⟩
    refine ⟨(s, y), ?_, by simp [hv]⟩
    rw [mem_sortBy, List.mem_dedup, List.mem_map]
    exact ⟨r, hr, by simp [h1, h2]⟩

theorem mem_merge_shape_iff (gdf : List ShapeRow) (agg : List (String × Int × Int))
    (n : String) (v : Int) :
    (n, v) ∈ merge_data_with_shapefile gdf agg ↔
      (∃ row ∈ gdf, row.name = n) ∧ (∃ a ∈ agg, a.1 = n ∧ a.2.2 = v) := by
  unfold merge_data_with_shapefile leftMergeShape
  rw [List.mem_filterMap]
  constructor
  · rintro ⟨⟨m, ov⟩, hmem, hmap⟩
    dsimp only at hmap
    cases ov with
    | none => simp at hmap
    | some w =>
      simp only [Option.map_some', Option.some.injEq, Prod.mk.injEq] at hmap
      obtain ⟨hm, hv⟩ := hmap
      subst hm; subst hv
      rw [List.mem_flatMap] at hmem
      obtain ⟨row, hrow, hin⟩ := hmem
      dsimp only at hin
      split at hin
      · simp only [List.mem_singleton, Prod.mk.injEq] at hin
        exact absurd hin.2 (by simp)
      · rw [List.mem_map] at hin
        obtain ⟨a, ha, haeq⟩ := hin
        rw [List.mem_filter, decide_eq_true_eq] at ha
        simp only [Prod.mk.injEq, Option.some.injEq] at haeq
        obtain ⟨hname, hval⟩ := haeq
        refine ⟨⟨row, hrow, hname⟩, a, ha.1, ?_, hval⟩
        rw [ha.2, hname]
  · rintro ⟨⟨row, hrow, hname⟩, a, ha, ha1, hav⟩
    refine ⟨(n, some v), ?_, rfl⟩
    rw [List.mem_flatMap]
    refine ⟨row, hrow, ?_⟩
    have hmem : a ∈ agg.filter fun a => decide (a.1 = row.name) := by
      rw [List.mem_filter, decide_eq_true_eq]
      exact ⟨ha, by rw [ha1, hname]⟩
    have hne : (agg.filter fun a => decide (a.1 = row.name)).isEmpty = false := by
      cases h : agg.filter fun a => decide (a.1 = row.name) with
      | nil => rw [h] at hmem; cases hmem
      | cons b bs => rfl
    dsimp only
    rw [if_neg (by simp [hne]), List.mem_map]
    exact ⟨a, hmem, by rw [hname, hav]⟩

theorem map_fst_groupSumBy (data : List Record) (r : String) :
    r ∈ (groupSumBy data).map Prod.fst ↔ r ∈ data.map Record.AgeRange := by
  unfold groupSumBy
  constructor
  · intro h
    rw [List.mem_map] at h
    obtain ⟨p, hp, hfst⟩ := h
    rw [List.mem_map] at hp
    obtain ⟨k, hk, hpk⟩ := hp
    rw [mem_sortBy, List.mem_dedup] at hk
    subst hpk
    dsimp only at hfst
    subst hfst
    exact hk
  · intro h
    rw [List.mem_map]
    refine ⟨⟨r, pandasSum ((data.filter fun x =>
      decide (x.AgeRange = r)).map Record.value)⟩, ?_, rfl⟩
    rw [List.mem_map]
    refine ⟨r, ?_, rfl⟩
    rw [mem_sortBy, List.mem_dedup]
    exact h

theorem lookup_groupSumBy (data : List Record) (r : String) :
    (groupSumBy data).lookup r =
      if r ∈ data.map Record.AgeRange then
        some (pandasSum ((data.filter fun x => decide (x.AgeRange = r)).map Record.value))
      else none := by
  unfold groupSumBy
  rw [lookup_map_self]
  by_cases h : r ∈ data.map Record.AgeRange
  · rw [if_pos (by rw [mem_sortBy, List.mem_dedup]; exact h), if_pos h]
  · rw [if_neg (by rw [mem_sortBy, List.mem_dedup]; exact h), if_neg h]

theorem getD_lookup_groupSumBy (data : List Record) (r : String) :
    ((groupSumBy data).lookup r).getD 0 =
      pandasSum ((data.filter fun x => decide (x.AgeRange = r)).map Record.value) := by
  rw [lookup_groupSumBy]
  by_cases h : r ∈ data.map Record.AgeRange
  · rw [if_pos h]; rfl
  · rw [if_neg h, filter_ageRange_nil data r h]; rfl

theorem mem_update_chart_rows (mort incid : List Record) (y : Int) (r : String) (d c : Int) :
    (r, d, c) ∈ update_chart_rows mort incid y ↔
      ((∃ m ∈ mort, m.Year = y ∧ m.AgeRange = r) ∨
        (∃ i ∈ incid, i.Year = y ∧ i.AgeRange = r)) ∧
      d = pandasSum (((mort.filter fun x => decide (x.Year = y)).filter fun x =>
            decide (x.AgeRange = r)).map Record.value) ∧
      c = pandasSum (((incid.filter fun x => decide (x.Year = y)).filter fun x =>
            decide (x.AgeRange = r)).map Record.value) := by
  simp only [update_chart_rows]
  rw [mem_map_key_triple, getD_lookup_groupSumBy, getD_lookup_groupSumBy,
    mem_sortBy, List.mem_dedup, List.mem_append, map_fst_groupSumBy, map_fst_groupSumBy]
  simp only [List.mem_map, List.mem_filter, decide_eq_true_eq]
  constructor
  · rintro ⟨hmem, hd, hc⟩
    refine ⟨?_, hd, hc⟩
    rcases hmem with ⟨x, ⟨hx, hy⟩, hr⟩ | ⟨x, ⟨hx, hy⟩, hr⟩
    · exact Or.inl ⟨x, hx, hy, hr⟩
    · exact Or.inr ⟨x, hx, hy, hr⟩
  · rintro ⟨hmem, hd, hc⟩
    refine ⟨?_, hd, hc⟩
    rcases hmem with ⟨x, hx, hy, hr⟩ | ⟨x, hx, hy, hr⟩
    · exact Or.inl ⟨x, ⟨hx, hy⟩, hr⟩
    · exact Or.inr ⟨x, ⟨hx, hy⟩, hr⟩

theorem filter_cleanData_congr (raw : List RawRecord) (p : Record → Bool)
    (q : RawRecord → Bool) (h : ∀ r, p (cleanRecord r) = q r) :
    (cleanData raw).filter p = cleanData (raw.filter q) := by
  unfold cleanData
  rw [List.filter_map]
  congr 1
  exact List.filter_congr fun x _ => h x

theorem sum_cleanData_values (raw : List RawRecord) :
    pandasSum ((cleanData raw).map Record.value) =
      (raw.map fun r => (toNumericCoerce r.rawValue).getD 0).sum := by
  unfold cleanData
  rw [List.map_map, pandasSum_eq_sum_getD, List.map_map]
  rfl

/-! ## Sample data used by counterexamples and witnesses -/

def sampleShape : List ShapeRow := [⟨"Alabama", [(-90, 32)]⟩]

def sampleMort : List Record := [⟨"Alabama", 2020, some 4, "0-19"⟩]

def sampleInc : List Record := [⟨"Alabama", 2020, some 9, "0-19"⟩]

/-! ## The claims -/

/-- C1: for every selected year and data type, each `(state, value)` pair that
the choropleth colours satisfies: the value is that state's per-state total
for the selected year — the pandas sum of the `Count` (incidence) resp.
`Deaths` (mortality) column over all records of that state and year, as
produced by `aggregate_data`'s group-by/sum. -/
theorem C1_map_colors_per_state_totals (shapefile : List ShapeRow)
    (mort incid : List Record) (year : Int) (data_type : String) (p : String × Int)
    (hp : p ∈ (update_map shapefile mort incid year data_type).states) :
    p.2 = pandasSum (((if data_type = "incidence" then incid else mort).filter fun r =>
      decide (r.State = p.1 ∧ r.Year = year)).map Record.value) := by
  obtain ⟨n, v⟩ := p
  dsimp only [update_map, create_us_map_with_aggregated_data] at hp
  by_cases hdt : data_type = "incidence"
  all_goals first
    | rw [if_pos hdt] at hp ⊢
    | rw [if_neg hdt] at hp ⊢
  all_goals {
    rw [mem_merge_shape_iff] at hp
    obtain ⟨-, ⟨a1, a2, a3⟩, ha, ha1, hav⟩ := hp
    subst ha1; subst hav
    simp only [filterYear, List.mem_filter, decide_eq_true_eq] at ha
    obtain ⟨ha, hy⟩ := ha
    subst hy
    exact ((mem_aggregate_iff _ _ _ _).1 ha).2
  }

/-- Witness for C1: one state, one incidence record; the colour value 11 is
that state's 2020 total. -/
theorem C1_map_colors_per_state_totals_witness :
    (("Alabama", 11) : String × Int).2 =
      pandasSum (((if "incidence" = "incidence" then
          [(⟨"Alabama", 2020, some 11, "0-19"⟩ : Record)] else []).filter fun r =>
        decide (r.State = (("Alabama", 11) : String × Int).1 ∧ r.Year = 2020)).map
          Record.value) :=
  C1_map_colors_per_state_totals [⟨"Alabama", [(-90, 32)]⟩] []
    [⟨"Alabama", 2020, some 11, "0-19"⟩] 2020 "incidence" ("Alabama", 11) (by decide)

/-- C2 counterexample: with 2020 records only in the 0-19 range in both
datasets, the bar chart for 2020 shows no bars at all for "80+", so not every
canonical age range gets two grouped bars. -/
theorem C2_counterexample :
    "80+" ∉ (update_chart [⟨"Alabama", 2020, some 5, "0-19"⟩]
      [⟨"Alabama", 2020, some 3, "0-19"⟩] 2020).xs := by decide

/-- C2 (amended): for every selected year, the bar chart has one row per
canonical age range occurring in the mortality or incidence data of that
year — with the Deaths bar the pandas sum of `Deaths` over the mortality
records of that year and age range and the Count bar the pandas sum of
`Count` over the incidence records of that year and age range — age ranges
occurring in neither dataset get no bars, and the x-axis category array
orders the ranges 0-19, 20-39, 40-59, 60-79, 80+. -/
theorem C2_bar_chart_rows (mort incid : List Record) (y : Int) (r : String) (d c : Int) :
    ((r, d, c) ∈ update_chart_rows mort incid y ↔
      ((∃ m ∈ mort, m.Year = y ∧ m.AgeRange = r) ∨
        (∃ i ∈ incid, i.Year = y ∧ i.AgeRange = r)) ∧
      d = pandasSum (((mort.filter fun x => decide (x.Year = y)).filter fun x =>
            decide (x.AgeRange = r)).map Record.value) ∧
      c = pandasSum (((incid.filter fun x => decide (x.Year = y)).filter fun x =>
            decide (x.AgeRange = r)).map Record.value)) ∧
    (update_chart mort incid y).xs = (update_chart_rows mort incid y).map (fun p => p.1) ∧
    (update_chart mort incid y).deaths =
      (update_chart_rows mort incid y).map (fun p => p.2.1) ∧
    (update_chart mort incid y).incidence =
      (update_chart_rows mort incid y).map (fun p => p.2.2) ∧
    (update_chart mort incid y).categoryArray = ["0-19", "20-39", "40-59", "60-79", "80+"] :=
  ⟨mem_update_chart_rows mort incid y r d c, rfl, rfl, rfl, rfl⟩

/-- C3: the claim describes the evident intent (bucket each source label into
the numerically containing canonical range), and the code slips: because the
classification uses *string* comparisons, the chained comparison
`"40-44" <= "5-9" <= "59"` holds lexicographically, so the label
"5-9 years" (ages 5 to 9) is re-bucketed to "40-59" instead of "0-19". -/
theorem C3_five_to_nine_misbucketed : clean_age_group "5-9 years" = "40-59" := by decide

/-- C4: `clean_age_group` is total onto the five canonical labels: for every
input string the result is one of "0-19", "20-39", "40-59", "60-79", "80+"
(the final `else` branch returns "80+"). -/
theorem C4_clean_age_group_total (s : String) :
    clean_age_group s ∈ ["0-19", "20-39", "40-59", "60-79", "80+"] := by
  simp only [clean_age_group]
  repeat' split
  all_goals decide

/-- C5 counterexample: the claim that the bar-chart figure differs between
the two data-type selections is false for every year — the bar-chart
callback receives only the year-slider input, so the second output of
`app_figures` is literally independent of `data_type`. -/
theorem C5_counterexample :
    ¬ ∃ (y : Int) (dt1 dt2 : String), dt1 ≠ dt2 ∧
      (app_figures sampleShape sampleMort sampleInc y dt1).1 ≠
        (app_figures sampleShape sampleMort sampleInc y dt2).1 ∧
      (app_figures sampleShape sampleMort sampleInc y dt1).2 ≠
        (app_figures sampleShape sampleMort sampleInc y dt2).2 :=
  fun ⟨_, _, _, _, _, hbar⟩ => hbar rfl

/-- C5 (amended): the year slider and the data-type selector drive the map,
but the bar chart is driven by the year slider alone: for every data, year
and pair of selector values the bar-chart figures coincide, while the two
selector values yield different map figures (already their colour scales
differ). -/
theorem C5_selector_drives_map_only (shapefile : List ShapeRow)
    (mort incid : List Record) (y : Int) (dt1 dt2 : String) :
    (app_figures shapefile mort incid y dt1).2 =
      (app_figures shapefile mort incid y dt2).2 ∧
    (app_figures sampleShape sampleMort sampleInc 2020 "incidence").1 ≠
      (app_figures sampleShape sampleMort sampleInc 2020 "mortality").1 :=
  ⟨rfl, by decide⟩

/-- C6: non-numeric entries of the count columns (e.g. "Suppressed") are
coerced to missing values and every aggregation still succeeds, with missing
values contributing zero: each per-state aggregated total and each
per-age-range bar of the chart equals the plain sum of the coerced raw
values with missing counted as 0 (so a group whose values are all missing
totals 0). -/
theorem C6_missing_contributes_zero (rawM rawI : List RawRecord) (y : Int)
    (p q : String × Int × Int)
    (hp : p ∈ aggregate_data (cleanData rawM))
    (hq : q ∈ update_chart_rows (cleanData rawM) (cleanData rawI) y) :
    p.2.2 = ((rawM.filter fun r => decide (r.State = p.1 ∧ r.Year = p.2.1)).map
      fun r => (toNumericCoerce r.rawValue).getD 0).sum ∧
    q.2.1 = (((rawM.filter fun r => decide (r.Year = y)).filter fun r =>
      decide (clean_age_group r.AgeGroup = q.1)).map
        fun r => (toNumericCoerce r.rawValue).getD 0).sum ∧
    q.2.2 = (((rawI.filter fun r => decide (r.Year = y)).filter fun r =>
      decide (clean_age_group r.AgeGroup = q.1)).map
        fun r => (toNumericCoerce r.rawValue).getD 0).sum := by
  obtain ⟨s, yy, v⟩ := p
  obtain ⟨r, d, c⟩ := q
  have hp2 := ((mem_aggregate_iff _ _ _ _).1 hp).2
  have hq2 := (mem_update_chart_rows _ _ _ _ _ _).1 hq
  dsimp only
  refine ⟨?_, ?_, ?_⟩
  · rw [hp2, filter_cleanData_congr _ _ (fun x => decide (x.State = s ∧ x.Year = yy))
      (fun x => rfl), sum_cleanData_values]
  · rw [hq2.2.1,
      filter_cleanData_congr _ _ (fun x => decide (x.Year = y)) (fun x => rfl),
      filter_cleanData_congr _ _ (fun x => decide (clean_age_group x.AgeGroup = r))
        (fun x => rfl),
      sum_cleanData_values]
  · rw [hq2.2.2,
      filter_cleanData_congr _ _ (fun x => decide (x.Year = y)) (fun x => rfl),
      filter_cleanData_congr _ _ (fun x => decide (clean_age_group x.AgeGroup = r))
        (fun x => rfl),
      sum_cleanData_values]

/-- Witness for C6: a mortality group whose only value is "Suppressed" totals
0, and the chart row built from it carries Deaths 0 and Count 7. -/
theorem C6_missing_contributes_zero_witness :
    ((("Alabama", 2020, 0) : String × Int × Int).2.2 =
      ((([⟨"Alabama", 2020, "Suppressed", "< 1 years"⟩] : List RawRecord).filter fun r =>
        decide (r.State = ("Alabama", (2020 : Int), (0 : Int)).1 ∧
          r.Year = ("Alabama", (2020 : Int), (0 : Int)).2.1)).map
            fun r => (toNumericCoerce r.rawValue).getD 0).sum) ∧
    ((("0-19", 0, 7) : String × Int × Int).2.1 =
      (((([⟨"Alabama", 2020, "Suppressed", "< 1 years"⟩] : List RawRecord).filter fun r =>
        decide (r.Year = 2020)).filter fun r =>
          decide (clean_age_group r.AgeGroup = ("0-19", (0 : Int), (7 : Int)).1)).map
            fun r => (toNumericCoerce r.rawValue).getD 0).sum) ∧
    ((("0-19", 0, 7) : String × Int × Int).2.2 =
      (((([⟨"Alabama", 2020, "7", "< 1 years"⟩] : List RawRecord).filter fun r =>
        decide (r.Year = 2020)).filter fun r =>
          decide (clean_age_group r.AgeGroup = ("0-19", (0 : Int), (7 : Int)).1)).map
            fun r => (toNumericCoerce r.rawValue).getD 0).sum) :=
  C6_missing_contributes_zero [⟨"Alabama", 2020, "Suppressed", "< 1 years"⟩]
    [⟨"Alabama", 2020, "7", "< 1 years"⟩] 2020 ("Alabama", 2020, 0) ("0-19", 0, 7)
    (by decide) (by decide)

/-- C7 counterexample: Alaska's geometry lies outside the contiguous-U.S.
bounding box, so although it is in the shapefile and has incidence data for
2020, it does not appear on the map. -/
theorem C7_counterexample :
    "Alaska" ∉ ((update_map [⟨"Alaska", [(-150, 64)]⟩, ⟨"Alabama", [(-90, 32)]⟩]
      [⟨"Alaska", 2020, some 2, "0-19"⟩]
      [⟨"Alaska", 2020, some 7, "0-19"⟩, ⟨"Alabama", 2020, some 3, "0-19"⟩]
      2020 "incidence").states.map Prod.fst) := by decide

/-- C7 (amended): the dashboard shows per-state data only for shapefile
states whose geometry intersects the contiguous-U.S. bounding box
(longitudes -125..-66, latitudes 24..49): every such state with aggregated
data for the selected year and data type appears on the map, while states
outside the box (e.g. Alaska and Hawaii) are clipped away before the merge. -/
theorem C7_states_in_bbox_shown (shapefile : List ShapeRow) (mort incid : List Record)
    (y : Int) (dt : String) (row : ShapeRow)
    (hrow : row ∈ shapefile)
    (hbox : (row.geometry.any fun p =>
      decide (min_long ≤ p.1 ∧ p.1 ≤ max_long ∧ min_lat ≤ p.2 ∧ p.2 ≤ max_lat)) = true)
    (hdata : ∃ a ∈ aggregate_data (if dt = "incidence" then incid else mort),
      a.1 = row.name ∧ a.2.1 = y) :
    row.name ∈ (update_map shapefile mort incid y dt).states.map Prod.fst := by
  obtain ⟨a, ha, ha1, hay⟩ := hdata
  dsimp only [update_map, create_us_map_with_aggregated_data]
  rw [List.mem_map]
  refine ⟨(row.name, a.2.2), ?_, rfl⟩
  by_cases hdt : dt = "incidence"
  all_goals first
    | (rw [if_pos hdt]; rw [if_pos hdt] at ha)
    | (rw [if_neg hdt]; rw [if_neg hdt] at ha)
  all_goals {
    rw [mem_merge_shape_iff]
    refine ⟨⟨row, ?_, rfl⟩, a, ?_, ha1, rfl⟩
    · rw [cxClip, List.mem_filter]
      exact ⟨hrow, hbox⟩
    · simp only [filterYear, List.mem_filter, decide_eq_true_eq]
      exact ⟨ha, hay⟩
  }

/-- Witness for C7 (amended): Alabama's vertex lies inside the box and it has
2020 incidence data, so it appears on the map. -/
theorem C7_states_in_bbox_shown_witness :
    (⟨"Alabama", [(-90, 32)]⟩ : ShapeRow).name ∈
      (update_map [⟨"Alabama", [(-90, 32)]⟩] [] [⟨"Alabama", 2020, some 11, "0-19"⟩]
        2020 "incidence").states.map Prod.fst :=
  C7_states_in_bbox_shown [⟨"Alabama", [(-90, 32)]⟩] [] [⟨"Alabama", 2020, some 11, "0-19"⟩]
    2020 "incidence" ⟨"Alabama", [(-90, 32)]⟩ (by decide) (by decide)
    ⟨("Alabama", 2020, 11), by decide, rfl, rfl⟩

/-- C8: a state with no aggregated data for the selected year and data type
is dropped after the left merge (its value column is NaN there) and so is
omitted from the choropleth entirely rather than rendered with value 0. -/
theorem C8_dataless_state_omitted (shapefile : List ShapeRow) (mort incid : List Record)
    (y : Int) (dt : String) (n : String)
    (h : ∀ a ∈ aggregate_data (if dt = "incidence" then incid else mort),
      ¬(a.1 = n ∧ a.2.1 = y)) :
    n ∉ (update_map shapefile mort incid y dt).states.map Prod.fst := by
  intro hmem
  dsimp only [update_map, create_us_map_with_aggregated_data] at hmem
  rw [List.mem_map] at hmem
  obtain ⟨⟨m, v⟩, hmv, hfst⟩ := hmem
  dsimp only at hfst
  subst hfst
  by_cases hdt : dt = "incidence"
  all_goals first
    | (rw [if_pos hdt] at hmv; rw [if_pos hdt] at h)
    | (rw [if_neg hdt] at hmv; rw [if_neg hdt] at h)
  all_goals {
    rw [mem_merge_shape_iff] at hmv
    obtain ⟨-, a, ha, ha1, -⟩ := hmv
    simp only [filterYear, List.mem_filter, decide_eq_true_eq] at ha
    exact h a ha.1 ⟨ha1, ha.2⟩
  }

/-- Witness for C8: Texas is in the shapefile but has no 2020 mortality
record, so the mortality map omits it. -/
theorem C8_dataless_state_omitted_witness :
    "Texas" ∉ (update_map [⟨"Texas", [(-99, 31)]⟩] [⟨"Alabama", 2020, some 4, "0-19"⟩]
      [⟨"Texas", 2020, some 9, "0-19"⟩] 2020 "mortality").states.map Prod.fst :=
  C8_dataless_state_omitted [⟨"Texas", [(-99, 31)]⟩] [⟨"Alabama", 2020, some 4, "0-19"⟩]
    [⟨"Texas", 2020, some 9, "0-19"⟩] 2020 "mortality" "Texas" (by decide)

/-- C9: the rendering path matches CSV state names against the shapefile
`name` field by exact string equality — a name appears on the map iff a
clipped shapefile row carries exactly that `name` and an aggregated row for
the selected year carries exactly that `State` — and the strip/title-case
cleanup of `merge_mortality_with_shapefile` is not part of this path:
concretely, a mortality state written " new york " is dropped from the
rendered map although `merge_mortality_with_shapefile`, which cleans it to
"New York", would match it. -/
theorem C9_exact_name_matching :
    (∀ (shapefile : List ShapeRow) (mort incid : List Record) (y : Int)
        (dt : String) (n : String),
      n ∈ (update_map shapefile mort incid y dt).states.map Prod.fst ↔
        (∃ row ∈ cxClip shapefile, row.name = n) ∧
        ∃ a ∈ aggregate_data (if dt = "incidence" then incid else mort),
          a.1 = n ∧ a.2.1 = y) ∧
    "New York" ∉ (update_map [⟨"New York", [(-75, 43)]⟩]
      [⟨" new york ", 2020, some 6, "0-19"⟩] [] 2020 "mortality").states.map Prod.fst ∧
    ("New York", 6) ∈ merge_mortality_with_shapefile [⟨"New York", [(-75, 43)]⟩]
      [⟨" new york ", 2020, some 6, "0-19"⟩] := by
  refine ⟨?_, by decide, by decide⟩
  intro shapefile mort incid y dt n
  constructor
  · intro hmem
    dsimp only [update_map, create_us_map_with_aggregated_data] at hmem
    rw [List.mem_map] at hmem
    obtain ⟨⟨m, v⟩, hmv, hfst⟩ := hmem
    dsimp only at hfst
    subst hfst
    by_cases hdt : dt = "incidence"
    all_goals first
      | (rw [if_pos hdt] at hmv; rw [if_pos hdt])
      | (rw [if_neg hdt] at hmv; rw [if_neg hdt])
    all_goals {
      rw [mem_merge_shape_iff] at hmv
      obtain ⟨hrow, a, ha, ha1, -⟩ := hmv
      simp only [filterYear, List.mem_filter, decide_eq_true_eq] at ha
      exact ⟨hrow, a, ha.1, ha1, ha.2⟩
    }
  · rintro ⟨⟨row, hrow, hname⟩, a, ha, ha1, hay⟩
    dsimp only [update_map, create_us_map_with_aggregated_data]
    rw [List.mem_map]
    refine ⟨(n, a.2.2), ?_, rfl⟩
    by_cases hdt : dt = "incidence"
    all_goals first
      | (rw [if_pos hdt]; rw [if_pos hdt] at ha)
      | (rw [if_neg hdt]; rw [if_neg hdt] at ha)
    all_goals {
      rw [mem_merge_shape_iff]
      refine ⟨⟨row, hrow, hname⟩, a, ?_, ha1, rfl⟩
      simp only [filterYear, List.mem_filter, decide_eq_true_eq]
      exact ⟨ha, hay⟩
    }

/-- C10: an age range present in only one of the two datasets for the
selected year still gets a row of `combined_data` through the outer merge on
Age Range, with the missing side's bar filled to 0 by `fillna(0)`. -/
theorem C10_outer_merge_fillna_zero (mort incid : List Record) (y : Int) (r : String) :
    ((∃ m ∈ mort, m.Year = y ∧ m.AgeRange = r) →
      (∀ i ∈ incid, ¬(i.Year = y ∧ i.AgeRange = r)) →
      (r, pandasSum (((mort.filter fun x => decide (x.Year = y)).filter fun x =>
          decide (x.AgeRange = r)).map Record.value), 0) ∈
        update_chart_rows mort incid y) ∧
    ((∃ i ∈ incid, i.Year = y ∧ i.AgeRange = r) →
      (∀ m ∈ mort, ¬(m.Year = y ∧ m.AgeRange = r)) →
      (r, 0, pandasSum (((incid.filter fun x => decide (x.Year = y)).filter fun x =>
          decide (x.AgeRange = r)).map Record.value)) ∈
        update_chart_rows mort incid y) := by
  have habs : ∀ (data : List Record),
      (∀ x ∈ data, ¬(x.Year = y ∧ x.AgeRange = r)) →
      ((data.filter fun x => decide (x.Year = y)).filter fun x =>
        decide (x.AgeRange = r)) = [] := by
    intro data hdata
    apply filter_ageRange_nil
    intro hc
    rw [List.mem_map] at hc
    obtain ⟨x, hx, hxr⟩ := hc
    rw [List.mem_filter, decide_eq_true_eq] at hx
    exact hdata x hx.1 ⟨hx.2, hxr⟩
  constructor
  · intro hm hi
    rw [mem_update_chart_rows]
    exact ⟨Or.inl hm, rfl, by rw [habs incid hi]; rfl⟩
  · intro hi hm
    rw [mem_update_chart_rows]
    exact ⟨Or.inr hi, by rw [habs mort hm]; rfl, rfl⟩

/-- Witness for C10: the 80+ range occurs only in the mortality data and the
0-19 range only in the incidence data; both still get chart rows, with the
missing side 0. -/
theorem C10_outer_merge_fillna_zero_witness :
    ("80+", 4, 0) ∈ update_chart_rows [⟨"Alabama", 2020, some 4, "80+"⟩]
      [⟨"Alabama", 2020, some 9, "0-19"⟩] 2020 ∧
    ("0-19", 0, 9) ∈ update_chart_rows [⟨"Alabama", 2020, some 4, "80+"⟩]
      [⟨"Alabama", 2020, some 9, "0-19"⟩] 2020 :=
  ⟨(C10_outer_merge_fillna_zero [⟨"Alabama", 2020, some 4, "80+"⟩]
      [⟨"Alabama", 2020, some 9, "0-19"⟩] 2020 "80+").1
      ⟨⟨"Alabama", 2020, some 4, "80+"⟩, by decide, by decide⟩ (by decide),
    (C10_outer_merge_fillna_zero [⟨"Alabama", 2020, some 4, "80+"⟩]
      [⟨"Alabama", 2020, some 9, "0-19"⟩] 2020 "0-19").2
      ⟨⟨"Alabama", 2020, some 9, "0-19"⟩, by decide, by decide⟩ (by decide)⟩

end Vis
